import Mathlib

/-!
Shallow embedding of `src/python/ray/dag/context.py` (the `DAGContext`
process-wide configuration singleton of Ray's compiled-graph DAG module)
and proofs of the specification claims about it.

The Python module does, in order:
1. at import time, compute the module-level `DEFAULT_*` constants by reading
   environment variables (`int(os.environ.get(key, default))` for the seven
   integer fields, `bool(os.environ.get(key, 0))` for the overlap flag);
2. declare the `@dataclass class DAGContext` whose eight fields default to
   those constants;
3. provide the static method `DAGContext.get_current()` which, under a lock,
   lazily allocates the process singleton `_default_context` and returns it.

Python objects live on a heap and `get_current` returns a *reference* to the
singleton, so the embedding models an explicit heap of `DAGContext` objects:
addresses are `Nat`, allocation bumps a counter, and mutation through a
reference is an update of the heap cell it points to.
-/

namespace RayDag

/-- An environment: a partial map from variable names to string values
(the state of `os.environ` at some instant). -/
abbrev Env := String → Option String

/-- Value of a nonempty run of decimal digits, `none` if the list is empty
or contains a non-digit. -/
def decDigitsVal (cs : List Char) : Option Nat :=
  if cs = [] then none
  else if cs.all (fun c => c.isDigit) then
    some (cs.foldl (fun acc c => 10 * acc + (c.toNat - 48)) 0)
  else none

/-- Surrounding whitespace removed from a character list. -/
def pyStrip (cs : List Char) : List Char :=
  ((cs.dropWhile Char.isWhitespace).reverse.dropWhile Char.isWhitespace).reverse

/-- Models Python's `int(s)` on a string: strip surrounding whitespace, then
an optional sign followed by a nonempty run of decimal digits; any other
shape raises `ValueError`, modelled as `none`. (Underscore digit-group
separators, accepted by CPython, are not modelled; no claim involves them.) -/
def pyInt (s : String) : Option Int :=
  match pyStrip s.data with
  | '+' :: cs => (decDigitsVal cs).map Int.ofNat
  | '-' :: cs => (decDigitsVal cs).map (fun n => -(Int.ofNat n))
  | cs => (decDigitsVal cs).map Int.ofNat

/-- Models Python's truthiness of the value `os.environ.get(key, 0)`:
if the variable is unset the default `0` is falsy; if it is set, a string
is truthy exactly when it is nonempty (`bool("")` is `False`, any other
string is `True`). -/
def envBool (env : Env) (key : String) : Bool :=
  match env key with
  | none => false
  | some s => !s.isEmpty

/-- The error raised when an environment override cannot be parsed into its
field's declared type (Python's `ValueError` from `int(...)`; the spec's
ConfigurationError). It records the offending key and string value. -/
structure ParseError where
  key : String
  value : String
deriving DecidableEq, Repr

/-- Models `int(os.environ.get(key, dflt))`: if the variable is unset the
integer default is returned; if it is set, its string value must parse as an
integer, otherwise the import fails with a `ParseError`. -/
def envInt (env : Env) (key : String) (dflt : Int) : Except ParseError Int :=
  match env key with
  | none => .ok dflt
  | some s =>
    match pyInt s with
    | some n => .ok n
    | none => .error ⟨key, s⟩

/-- The module-level `DEFAULT_*` constants of `context.py`, as computed
at import time. -/
structure ModuleDefaults where
  DEFAULT_SUBMIT_TIMEOUT_S : Int
  DEFAULT_GET_TIMEOUT_S : Int
  DEFAULT_TEARDOWN_TIMEOUT_S : Int
  DEFAULT_BUFFER_SIZE_BYTES : Int
  DEFAULT_ASYNCIO_MAX_QUEUE_SIZE : Int
  DEFAULT_MAX_BUFFERED_RESULTS : Int
  DEFAULT_MAX_INFLIGHT_EXECUTIONS : Int
  DEFAULT_OVERLAP_GPU_COMMUNICATION : Bool
deriving DecidableEq, Repr

/-- The environment-variable keys of the seven integer-typed fields, in the
order the module reads them. -/
def intOverrideKeys : List String :=
  ["RAY_CGRAPH_submit_timeout",
   "RAY_CGRAPH_get_timeout",
   "RAY_CGRAPH_teardown_timeout",
   "RAY_CGRAPH_buffer_size_bytes",
   "RAY_CGRAPH_asyncio_max_queue_size",
   "RAY_CGRAPH_max_buffered_results",
   "RAY_CGRAPH_max_inflight_executions"]

/-- Module import: evaluate the `DEFAULT_*` constants top to bottom against
the environment snapshot at import time. The compiled-in fallbacks are
10, 10, 30, `int(1e6) = 1000000`, 0, 1000, 10 and `bool(0) = False`.
The first unparseable override aborts the import with its error. -/
def moduleInit (env : Env) : Except ParseError ModuleDefaults := do
  let subT ← envInt env "RAY_CGRAPH_submit_timeout" 10
  let getT ← envInt env "RAY_CGRAPH_get_timeout" 10
  let tdT ← envInt env "RAY_CGRAPH_teardown_timeout" 30
  let bufB ← envInt env "RAY_CGRAPH_buffer_size_bytes" 1000000
  let aq ← envInt env "RAY_CGRAPH_asyncio_max_queue_size" 0
  let mbr ← envInt env "RAY_CGRAPH_max_buffered_results" 1000
  let mie ← envInt env "RAY_CGRAPH_max_inflight_executions" 10
  let ov := envBool env "RAY_CGRAPH_overlap_gpu_communication"
  pure ⟨subT, getT, tdT, bufB, aq, mbr, mie, ov⟩

/-- The `DAGContext` dataclass: a record of eight mutable fields. -/
structure DAGContext where
  submit_timeout : Int
  get_timeout : Int
  teardown_timeout : Int
  buffer_size_bytes : Int
  asyncio_max_queue_size : Int
  max_buffered_results : Int
  max_inflight_executions : Int
  overlap_gpu_communication : Bool
deriving DecidableEq, Repr

/-- The zero-argument dataclass construction `DAGContext()`: every field
takes its `DEFAULT_*` module constant. -/
def DAGContext.fromDefaults (d : ModuleDefaults) : DAGContext where
  submit_timeout := d.DEFAULT_SUBMIT_TIMEOUT_S
  get_timeout := d.DEFAULT_GET_TIMEOUT_S
  teardown_timeout := d.DEFAULT_TEARDOWN_TIMEOUT_S
  buffer_size_bytes := d.DEFAULT_BUFFER_SIZE_BYTES
  asyncio_max_queue_size := d.DEFAULT_ASYNCIO_MAX_QUEUE_SIZE
  max_buffered_results := d.DEFAULT_MAX_BUFFERED_RESULTS
  max_inflight_executions := d.DEFAULT_MAX_INFLIGHT_EXECUTIONS
  overlap_gpu_communication := d.DEFAULT_OVERLAP_GPU_COMMUNICATION

/-- Python attribute assignment `ctx.submit_timeout = v`. -/
def DAGContext.set_submit_timeout (c : DAGContext) (v : Int) : DAGContext :=
  { c with submit_timeout := v }

/-- Python attribute assignment `ctx.get_timeout = v`. -/
def DAGContext.set_get_timeout (c : DAGContext) (v : Int) : DAGContext :=
  { c with get_timeout := v }

/-- Python attribute assignment `ctx.teardown_timeout = v`. -/
def DAGContext.set_teardown_timeout (c : DAGContext) (v : Int) : DAGContext :=
  { c with teardown_timeout := v }

/-- Python attribute assignment `ctx.buffer_size_bytes = v`. -/
def DAGContext.set_buffer_size_bytes (c : DAGContext) (v : Int) : DAGContext :=
  { c with buffer_size_bytes := v }

/-- Python attribute assignment `ctx.asyncio_max_queue_size = v`. -/
def DAGContext.set_asyncio_max_queue_size (c : DAGContext) (v : Int) : DAGContext :=
  { c with asyncio_max_queue_size := v }

/-- Python attribute assignment `ctx.max_buffered_results = v`. -/
def DAGContext.set_max_buffered_results (c : DAGContext) (v : Int) : DAGContext :=
  { c with max_buffered_results := v }

/-- Python attribute assignment `ctx.max_inflight_executions = v`. -/
def DAGContext.set_max_inflight_executions (c : DAGContext) (v : Int) : DAGContext :=
  { c with max_inflight_executions := v }

/-- Python attribute assignment `ctx.overlap_gpu_communication = v`. -/
def DAGContext.set_overlap_gpu_communication (c : DAGContext) (v : Bool) : DAGContext :=
  { c with overlap_gpu_communication := v }

/-- The process state after the module has been imported: the snapshot of the
`DEFAULT_*` constants, a heap of `DAGContext` objects (addresses are `Nat`,
`next` is the next fresh address) and the module global `_default_context`,
which is `none` (Python `None`) or the address of the singleton. -/
structure ProcState where
  defaults : ModuleDefaults
  store : Nat → Option DAGContext
  next : Nat
  dctx : Option Nat

/-- The process state right after import: no `DAGContext` object has been
allocated and `_default_context is None`. -/
def ProcState.initial (d : ModuleDefaults) : ProcState where
  defaults := d
  store := fun _ => none
  next := 0
  dctx := none

/-- Well-formedness of a process state: the singleton pointer, when set,
points below the allocation frontier at an allocated object. -/
def ProcState.WF (st : ProcState) : Prop :=
  ∀ a, st.dctx = some a → a < st.next ∧ (st.store a).isSome

/-- `DAGContext.get_current()`: under the lock (the lock only matters for the
concurrent model below; a single call is atomic here), if `_default_context`
is `None`, allocate `DAGContext()` — all fields at their defaults — store its
reference in `_default_context`, and return the (possibly just created)
reference together with the updated process state. -/
def DAGContext.get_current (st : ProcState) : Nat × ProcState :=
  match st.dctx with
  | some a => (a, st)
  | none =>
    let a := st.next
    let c := DAGContext.fromDefaults st.defaults
    (a, { st with
            store := fun x => if x = a then some c else st.store x,
            next := a + 1,
            dctx := some a })

/-- A direct dataclass construction `DAGContext(v₁, …, v₈)` by arbitrary
caller code: allocates a fresh object holding `c` and returns its reference;
the module global `_default_context` is not touched. -/
def constructNew (st : ProcState) (c : DAGContext) : Nat × ProcState :=
  (st.next, { st with
                store := fun x => if x = st.next then some c else st.store x,
                next := st.next + 1 })

/-- Mutation through a reference: rewrite the object at address `a` with `f`
(models attribute assignment on the object `a` points to). -/
def updateAt (st : ProcState) (a : Nat) (f : DAGContext → DAGContext) : ProcState :=
  { st with store := fun x => if x = a then (st.store x).map f else st.store x }

/-- Read a field of the object at address `a` (models `ref.field`), as an
`Option` in case the address is dangling. -/
def readAt (st : ProcState) (a : Nat) : Option DAGContext :=
  st.store a

/-- A whole fresh-process run: import the module under `env` (which may fail
on an unparseable override), then make the first `get_current()` call. -/
def importAndGet (env : Env) : Except ParseError (Nat × ProcState) := do
  let d ← moduleInit env
  pure (DAGContext.get_current (ProcState.initial d))

/-- A fresh-process run in which the environment is changed between the
module import and the first accessor call: the module is imported under
`envAtImport`, then `os.environ` becomes `envBeforeFirstAccess`, then
`get_current()` is called. In the source, neither `get_current` nor the
dataclass defaults read the environment after import, so the second
environment is dead: the run is `importAndGet envAtImport`. -/
def runWithEnvChange (envAtImport : Env) (_envBeforeFirstAccess : Env) :
    Except ParseError (Nat × ProcState) :=
  importAndGet envAtImport

/-- The compiled-in defaults: the `ModuleDefaults` obtained when no
`RAY_CGRAPH_*` variable is set. -/
def stockDefaults : ModuleDefaults :=
  ⟨10, 10, 30, 1000000, 0, 1000, 10, false⟩

/-- An empty environment: no variable is set. -/
def envEmpty : Env := fun _ => none

/-- An environment whose only setting is the unparseable override
`RAY_CGRAPH_submit_timeout=not_a_number`. -/
def envNotANumber : Env := fun k =>
  if k = "RAY_CGRAPH_submit_timeout" then some "not_a_number" else none

/-- An environment whose only setting is the valid override
`RAY_CGRAPH_submit_timeout=42`. -/
def envSubmit42 : Env := fun k =>
  if k = "RAY_CGRAPH_submit_timeout" then some "42" else none

/-- An environment overriding every field:
the seven integer fields to 11, 12, 33, 777, 5, 99, 3 and the overlap flag
to the (truthy) string `"1"`. -/
def envOverrideAll : Env := fun k =>
  if k = "RAY_CGRAPH_submit_timeout" then some "11"
  else if k = "RAY_CGRAPH_get_timeout" then some "12"
  else if k = "RAY_CGRAPH_teardown_timeout" then some "33"
  else if k = "RAY_CGRAPH_buffer_size_bytes" then some "777"
  else if k = "RAY_CGRAPH_asyncio_max_queue_size" then some "5"
  else if k = "RAY_CGRAPH_max_buffered_results" then some "99"
  else if k = "RAY_CGRAPH_max_inflight_executions" then some "3"
  else if k = "RAY_CGRAPH_overlap_gpu_communication" then some "1"
  else none

/-- A process state holding the singleton: the result of the first
`get_current()` call in a fresh process with no overrides. -/
def stSingleton : ProcState :=
  (DAGContext.get_current (ProcState.initial stockDefaults)).2

/-! ### A model of concurrent first-time access (claim C7)

`get_current` takes `_context_lock` around its whole body. Threads are
modelled explicitly: each thread runs the two atomic steps of the source —
acquire the lock, then (while holding it) run the body
`if _default_context is None: _default_context = DAGContext(); return
_default_context` and release. Steps of distinct threads interleave
arbitrarily; the lock can only be acquired when free. A ghost counter
records how many times the `None` branch (an actual construction) ran. -/

/-- The phase of one thread calling `get_current`: not yet started, holding
the lock, or finished with the returned reference. -/
inductive ThreadPhase where
  | start : ThreadPhase
  | locked : ThreadPhase
  | finished (ref : Nat) : ThreadPhase
deriving DecidableEq, Repr

/-- Global state of a process in which `K` threads each make one
`get_current()` call: the process state, the lock owner (`none` = free),
each thread's phase, and the ghost count of constructions performed. -/
structure ConcState (K : Nat) where
  proc : ProcState
  lock : Option (Fin K)
  threads : Fin K → ThreadPhase
  builds : Nat

/-- The state at which all `K` threads are about to make their first call,
right after module import: no singleton, lock free, nothing built. -/
def ConcState.start (K : Nat) (d : ModuleDefaults) : ConcState K where
  proc := ProcState.initial d
  lock := none
  threads := fun _ => ThreadPhase.start
  builds := 0

/-- One interleaving step: either some thread acquires the free lock, or the
thread holding the lock runs the body of `get_current` and releases it. -/
inductive CStep (K : Nat) : ConcState K → ConcState K → Prop where
  | acquire (t : Fin K) (s : ConcState K) :
      s.lock = none → s.threads t = ThreadPhase.start →
      CStep K s { s with
                    lock := some t,
                    threads := Function.update s.threads t ThreadPhase.locked }
  | body (t : Fin K) (s : ConcState K) :
      s.lock = some t → s.threads t = ThreadPhase.locked →
      CStep K s { proc := (DAGContext.get_current s.proc).2,
                  lock := none,
                  threads := Function.update s.threads t
                    (ThreadPhase.finished (DAGContext.get_current s.proc).1),
                  builds := s.builds + (if s.proc.dctx = none then 1 else 0) }

/-- Reachability by interleaving steps. -/
def ConcReach (K : Nat) : ConcState K → ConcState K → Prop :=
  Relation.ReflTransGen (CStep K)

/-- The invariant maintained by every interleaving: at most one construction
ever happens, it happens exactly when the singleton exists, the singleton
(when it exists) is the fully constructed default instance, and every
finished thread got the singleton's reference. -/
def ConcInv (K : Nat) (d : ModuleDefaults) (s : ConcState K) : Prop :=
  s.proc.defaults = d ∧
  s.builds ≤ 1 ∧
  (s.proc.dctx = none ↔ s.builds = 0) ∧
  (∀ a, s.proc.dctx = some a →
    s.proc.store a = some (DAGContext.fromDefaults d)) ∧
  (∀ t r, s.threads t = ThreadPhase.finished r → s.proc.dctx = some r)

/-- A concrete one-thread interleaving, state 0: thread 0 about to call. -/
def concStart : ConcState 1 := ConcState.start 1 stockDefaults

/-- A concrete one-thread interleaving, state 1: thread 0 holds the lock. -/
def concMid : ConcState 1 :=
  { concStart with
      lock := some 0,
      threads := Function.update concStart.threads 0 ThreadPhase.locked }

/-- A concrete one-thread interleaving, state 2: thread 0 ran the body of
`get_current` and released the lock. -/
def concFinal : ConcState 1 :=
  { proc := (DAGContext.get_current concMid.proc).2,
    lock := none,
    threads := Function.update concMid.threads 0
      (ThreadPhase.finished (DAGContext.get_current concMid.proc).1),
    builds := concMid.builds + (if concMid.proc.dctx = none then 1 else 0) }

/-! ### Helper lemmas -/

theorem except_bind_ok {ε α β : Type} (x : Except ε α) (f : α → Except ε β) (b : β) :
    (x >>= f) = Except.ok b ↔ ∃ a, x = Except.ok a ∧ f a = Except.ok b := by
  cases x <;> simp [Bind.bind, Except.bind]

theorem envInt_unset (env : Env) (k : String) (dflt : Int) (h : env k = none) :
    envInt env k dflt = Except.ok dflt := by
  unfold envInt
  rw [h]

theorem envInt_set (env : Env) (k : String) (dflt : Int) (s : String) (hs : env k = some s) :
    envInt env k dflt =
      (match pyInt s with
       | some n => Except.ok n
       | none => Except.error ⟨k, s⟩) := by
  unfold envInt
  rw [hs]

theorem envInt_parse_ok (env : Env) (k : String) (dflt : Int) (s : String) (n : Int)
    (hs : env k = some s) (hp : pyInt s = some n) :
    envInt env k dflt = Except.ok n := by
  rw [envInt_set env k dflt s hs, hp]

theorem envBool_set (env : Env) (k : String) (s : String) (hs : env k = some s) :
    envBool env k = !s.isEmpty := by
  unfold envBool
  rw [hs]

/-- A successful import determines every `DEFAULT_*` constant from its
`envInt`/`envBool` resolution. -/
theorem moduleInit_ok_fields (env : Env) (d : ModuleDefaults)
    (h : moduleInit env = Except.ok d) :
    envInt env "RAY_CGRAPH_submit_timeout" 10 = Except.ok d.DEFAULT_SUBMIT_TIMEOUT_S ∧
    envInt env "RAY_CGRAPH_get_timeout" 10 = Except.ok d.DEFAULT_GET_TIMEOUT_S ∧
    envInt env "RAY_CGRAPH_teardown_timeout" 30 = Except.ok d.DEFAULT_TEARDOWN_TIMEOUT_S ∧
    envInt env "RAY_CGRAPH_buffer_size_bytes" 1000000 = Except.ok d.DEFAULT_BUFFER_SIZE_BYTES ∧
    envInt env "RAY_CGRAPH_asyncio_max_queue_size" 0 =
      Except.ok d.DEFAULT_ASYNCIO_MAX_QUEUE_SIZE ∧
    envInt env "RAY_CGRAPH_max_buffered_results" 1000 =
      Except.ok d.DEFAULT_MAX_BUFFERED_RESULTS ∧
    envInt env "RAY_CGRAPH_max_inflight_executions" 10 =
      Except.ok d.DEFAULT_MAX_INFLIGHT_EXECUTIONS ∧
    envBool env "RAY_CGRAPH_overlap_gpu_communication" =
      d.DEFAULT_OVERLAP_GPU_COMMUNICATION := by
  unfold moduleInit at h
  simp only [bind, Except.bind, pure, Except.pure] at h
  cases h1 : envInt env "RAY_CGRAPH_submit_timeout" 10 <;> rw [h1] at h
  · simp at h
  cases h2 : envInt env "RAY_CGRAPH_get_timeout" 10 <;> rw [h2] at h
  · simp at h
  cases h3 : envInt env "RAY_CGRAPH_teardown_timeout" 30 <;> rw [h3] at h
  · simp at h
  cases h4 : envInt env "RAY_CGRAPH_buffer_size_bytes" 1000000 <;> rw [h4] at h
  · simp at h
  cases h5 : envInt env "RAY_CGRAPH_asyncio_max_queue_size" 0 <;> rw [h5] at h
  · simp at h
  cases h6 : envInt env "RAY_CGRAPH_max_buffered_results" 1000 <;> rw [h6] at h
  · simp at h
  cases h7 : envInt env "RAY_CGRAPH_max_inflight_executions" 10 <;> rw [h7] at h
  · simp at h
  injection h with h
  subst h
  exact ⟨rfl, rfl, rfl, rfl, rfl, rfl, rfl, rfl⟩

/-- If an integer field's override is set to `s` and the import succeeds,
`s` parses as an integer. -/
theorem moduleInit_ok_parses (env : Env) (d : ModuleDefaults)
    (h : moduleInit env = Except.ok d) (k : String) (hk : k ∈ intOverrideKeys)
    (s : String) (hs : env k = some s) : ∃ n, pyInt s = some n := by
  have hf := moduleInit_ok_fields env d h
  have key : ∀ dflt v, envInt env k dflt = Except.ok v → ∃ n, pyInt s = some n := by
    intro dflt v hv
    rw [envInt_set env k dflt s hs] at hv
    cases hp : pyInt s
    · rw [hp] at hv
      exact absurd hv (by simp)
    · exact ⟨_, rfl⟩
  simp only [intOverrideKeys, List.mem_cons, List.not_mem_nil, or_false] at hk
  rcases hk with rfl | rfl | rfl | rfl | rfl | rfl | rfl
  · exact key _ _ hf.1
  · exact key _ _ hf.2.1
  · exact key _ _ hf.2.2.1
  · exact key _ _ hf.2.2.2.1
  · exact key _ _ hf.2.2.2.2.1
  · exact key _ _ hf.2.2.2.2.2.1
  · exact key _ _ hf.2.2.2.2.2.2.1

/-- `get_current` on a state that already holds the singleton returns the
stored reference and leaves the state untouched. -/
theorem get_current_init (st : ProcState) (a : Nat) (h : st.dctx = some a) :
    DAGContext.get_current st = (a, st) := by
  unfold DAGContext.get_current
  rw [h]

/-- `get_current` on a state with no singleton allocates the default
instance at the next fresh address and installs it. -/
theorem get_current_uninit (st : ProcState) (h : st.dctx = none) :
    DAGContext.get_current st =
      (st.next,
       { st with
           store := fun x =>
             if x = st.next then some (DAGContext.fromDefaults st.defaults)
             else st.store x,
           next := st.next + 1,
           dctx := some st.next }) := by
  unfold DAGContext.get_current
  rw [h]

theorem importAndGet_ok (env : Env) (d : ModuleDefaults)
    (h : moduleInit env = Except.ok d) :
    importAndGet env =
      Except.ok (DAGContext.get_current (ProcState.initial d)) := by
  unfold importAndGet
  rw [h]
  rfl

theorem importAndGet_err (env : Env) (e : ParseError)
    (h : moduleInit env = Except.error e) :
    importAndGet env = Except.error e := by
  unfold importAndGet
  rw [h]
  rfl

/-- With none of the eight override variables set, the import computes the
compiled-in defaults. -/
theorem moduleInit_stock (env : Env)
    (h : ∀ k ∈ intOverrideKeys, env k = none)
    (hov : env "RAY_CGRAPH_overlap_gpu_communication" = none) :
    moduleInit env = Except.ok stockDefaults := by
  unfold moduleInit
  rw [envInt_unset env _ _ (h _ (by simp [intOverrideKeys])),
      envInt_unset env "RAY_CGRAPH_get_timeout" _ (h _ (by simp [intOverrideKeys])),
      envInt_unset env "RAY_CGRAPH_teardown_timeout" _ (h _ (by simp [intOverrideKeys])),
      envInt_unset env "RAY_CGRAPH_buffer_size_bytes" _ (h _ (by simp [intOverrideKeys])),
      envInt_unset env "RAY_CGRAPH_asyncio_max_queue_size" _ (h _ (by simp [intOverrideKeys])),
      envInt_unset env "RAY_CGRAPH_max_buffered_results" _ (h _ (by simp [intOverrideKeys])),
      envInt_unset env "RAY_CGRAPH_max_inflight_executions" _ (h _ (by simp [intOverrideKeys]))]
  simp only [bind, Except.bind, pure, Except.pure, envBool, hov]
  rfl

theorem envInt_set_inv (env : Env) (k : String) (dflt : Int) (s : String) (v : Int)
    (hs : env k = some s) (hv : envInt env k dflt = Except.ok v) :
    pyInt s = some v := by
  rw [envInt_set env k dflt s hs] at hv
  cases hp : pyInt s
  · rw [hp] at hv
    exact absurd hv (by simp)
  · rename_i n
    rw [hp] at hv
    injection hv with hv
    exact congrArg some hv

/-- The state returned by `get_current` always has its singleton pointer set
to the returned reference. -/
theorem get_current_dctx (st : ProcState) :
    ((DAGContext.get_current st).2).dctx = some (DAGContext.get_current st).1 := by
  cases h : st.dctx with
  | some a => rw [get_current_init st a h]; exact h
  | none => rw [get_current_uninit st h]

/-- The reference returned by `get_current` points at an allocated object
(given a well-formed starting state). -/
theorem get_current_store (st : ProcState) (hwf : st.WF) :
    ∃ c, ((DAGContext.get_current st).2).store (DAGContext.get_current st).1 = some c := by
  cases h : st.dctx with
  | some a =>
    rw [get_current_init st a h]
    exact Option.isSome_iff_exists.mp (hwf a h).2
  | none =>
    rw [get_current_uninit st h]
    exact ⟨DAGContext.fromDefaults st.defaults, by simp⟩

/-- Reading back through the address just mutated sees the mutation. -/
theorem read_updateAt_self (st : ProcState) (a : Nat) (f : DAGContext → DAGContext) :
    readAt (updateAt st a f) a = (readAt st a).map f := by
  simp [readAt, updateAt]

/-- Reading another address is unaffected by a mutation. -/
theorem read_updateAt_other (st : ProcState) (a b : Nat) (f : DAGContext → DAGContext)
    (h : b ≠ a) : readAt (updateAt st a f) b = readAt st b := by
  simp [readAt, updateAt, h]

/-- `get_current` preserves well-formedness. -/
theorem get_current_wf (st : ProcState) (hwf : st.WF) :
    ((DAGContext.get_current st).2).WF := by
  cases h : st.dctx with
  | some a => rw [get_current_init st a h]; exact hwf
  | none =>
    rw [get_current_uninit st h]
    intro b hb
    injection hb with hb
    subst hb
    exact ⟨Nat.lt_succ_self _, by simp⟩

/-- The singleton state: `stSingleton` is well-formed and holds the default
instance at address 0. -/
theorem stSingleton_wf : stSingleton.WF := by
  intro a h
  have ha : (0 : Nat) = a := Option.some.inj h
  subst ha
  exact ⟨Nat.zero_lt_one, rfl⟩

/-! ### Claims -/

/-- C1: for every integer-typed field, if its environment override is set to
a string that cannot be parsed as an integer, then the first `get_current()`
call in a fresh process fails with the configuration `ParseError`, and no
context — in particular none with the field at its compiled-in default — is
ever returned. -/
theorem c1_unparseable_override_fails (env : Env) (k s : String)
    (hk : k ∈ intOverrideKeys) (hs : env k = some s) (hbad : pyInt s = none) :
    (∃ e : ParseError, importAndGet env = Except.error e) ∧
    ∀ r, importAndGet env ≠ Except.ok r := by
  have hnotok : ∀ d, moduleInit env ≠ Except.ok d := by
    intro d hd
    obtain ⟨n, hn⟩ := moduleInit_ok_parses env d hd k hk s hs
    rw [hbad] at hn
    exact Option.noConfusion hn
  cases hm : moduleInit env with
  | error e =>
    have he := importAndGet_err env e hm
    exact ⟨⟨e, he⟩, fun r hr => by rw [he] at hr; exact Except.noConfusion hr⟩
  | ok d => exact absurd hm (hnotok d)

/-- Witness for C1 at the concrete input
`RAY_CGRAPH_submit_timeout=not_a_number`. -/
theorem c1_unparseable_override_fails_witness :
    (∃ e : ParseError, importAndGet envNotANumber = Except.error e) ∧
    ∀ r, importAndGet envNotANumber ≠ Except.ok r :=
  c1_unparseable_override_fails envNotANumber "RAY_CGRAPH_submit_timeout"
    "not_a_number" (by simp [intOverrideKeys]) rfl (by decide)

/-- C3: with no environment override set, the first `get_current()` call in
a fresh process returns a context whose fields are exactly the compiled-in
defaults: timeouts 10, 10, 30, buffer size 1000000, asyncio queue size 0,
max buffered results 1000, max inflight executions 10, and overlap flag
`false`. -/
theorem c3_no_override_defaults (env : Env)
    (h : ∀ k ∈ intOverrideKeys, env k = none)
    (hov : env "RAY_CGRAPH_overlap_gpu_communication" = none) :
    ∃ r : Nat × ProcState, importAndGet env = Except.ok r ∧
      readAt r.2 r.1 = some
        { submit_timeout := 10,
          get_timeout := 10,
          teardown_timeout := 30,
          buffer_size_bytes := 1000000,
          asyncio_max_queue_size := 0,
          max_buffered_results := 1000,
          max_inflight_executions := 10,
          overlap_gpu_communication := false } := by
  refine ⟨DAGContext.get_current (ProcState.initial stockDefaults), ?_, rfl⟩
  exact importAndGet_ok env stockDefaults (moduleInit_stock env h hov)

/-- Witness for C3 at the empty environment. -/
theorem c3_no_override_defaults_witness :
    ∃ r : Nat × ProcState, importAndGet envEmpty = Except.ok r ∧
      readAt r.2 r.1 = some
        { submit_timeout := 10,
          get_timeout := 10,
          teardown_timeout := 30,
          buffer_size_bytes := 1000000,
          asyncio_max_queue_size := 0,
          max_buffered_results := 1000,
          max_inflight_executions := 10,
          overlap_gpu_communication := false } :=
  c3_no_override_defaults envEmpty (fun _ _ => rfl) rfl

/-- Counterexample to C2 as stated: a run in which the module is imported
under an empty environment and the valid override
`RAY_CGRAPH_submit_timeout=42` is present *before the first accessor call*
(but after import). The claim says the field then equals the parsed override
42; the code resolves overrides at module import, so the first
`get_current()` returns the compiled-in default 10. -/
theorem c2_resolution_time_counterexample :
    pyInt "42" = some 42 ∧
    envSubmit42 "RAY_CGRAPH_submit_timeout" = some "42" ∧
    ∃ r : Nat × ProcState,
      runWithEnvChange envEmpty envSubmit42 = Except.ok r ∧
      (readAt r.2 r.1).map (fun c => c.submit_timeout) = some 10 ∧
      (10 : Int) ≠ 42 := by
  refine ⟨by decide, rfl,
    DAGContext.get_current (ProcState.initial stockDefaults), ?_, rfl, by decide⟩
  exact importAndGet_ok envEmpty stockDefaults
    (moduleInit_stock envEmpty (fun _ _ => rfl) rfl)

/-- C2 amended: overrides are resolved exactly once, at *module import*, not
at first construction of the singleton. For every field, a valid override
present in the environment at import time makes `get_current()` return the
parsed override value rather than the compiled-in default, and the
environment in force after import (in particular after the singleton
exists) has no effect on any field. -/
theorem c2_override_at_import_wins (envI envLater : Env) (d : ModuleDefaults)
    (hm : moduleInit envI = Except.ok d) :
    runWithEnvChange envI envLater = importAndGet envI ∧
    (∃ r : Nat × ProcState, importAndGet envI = Except.ok r ∧
      readAt r.2 r.1 = some (DAGContext.fromDefaults d)) ∧
    (∀ s n, envI "RAY_CGRAPH_submit_timeout" = some s → pyInt s = some n →
      (DAGContext.fromDefaults d).submit_timeout = n) ∧
    (∀ s n, envI "RAY_CGRAPH_get_timeout" = some s → pyInt s = some n →
      (DAGContext.fromDefaults d).get_timeout = n) ∧
    (∀ s n, envI "RAY_CGRAPH_teardown_timeout" = some s → pyInt s = some n →
      (DAGContext.fromDefaults d).teardown_timeout = n) ∧
    (∀ s n, envI "RAY_CGRAPH_buffer_size_bytes" = some s → pyInt s = some n →
      (DAGContext.fromDefaults d).buffer_size_bytes = n) ∧
    (∀ s n, envI "RAY_CGRAPH_asyncio_max_queue_size" = some s → pyInt s = some n →
      (DAGContext.fromDefaults d).asyncio_max_queue_size = n) ∧
    (∀ s n, envI "RAY_CGRAPH_max_buffered_results" = some s → pyInt s = some n →
      (DAGContext.fromDefaults d).max_buffered_results = n) ∧
    (∀ s n, envI "RAY_CGRAPH_max_inflight_executions" = some s → pyInt s = some n →
      (DAGContext.fromDefaults d).max_inflight_executions = n) ∧
    (∀ s, envI "RAY_CGRAPH_overlap_gpu_communication" = some s →
      (DAGContext.fromDefaults d).overlap_gpu_communication = !s.isEmpty) := by
  have hf := moduleInit_ok_fields envI d hm
  refine ⟨rfl, ⟨_, importAndGet_ok envI d hm, rfl⟩, ?_, ?_, ?_, ?_, ?_, ?_, ?_, ?_⟩
  · intro s n hs hp
    have h := hf.1
    rw [envInt_parse_ok envI _ _ s n hs hp] at h
    injection h with h
    exact h.symm
  · intro s n hs hp
    have h := hf.2.1
    rw [envInt_parse_ok envI _ _ s n hs hp] at h
    injection h with h
    exact h.symm
  · intro s n hs hp
    have h := hf.2.2.1
    rw [envInt_parse_ok envI _ _ s n hs hp] at h
    injection h with h
    exact h.symm
  · intro s n hs hp
    have h := hf.2.2.2.1
    rw [envInt_parse_ok envI _ _ s n hs hp] at h
    injection h with h
    exact h.symm
  · intro s n hs hp
    have h := hf.2.2.2.2.1
    rw [envInt_parse_ok envI _ _ s n hs hp] at h
    injection h with h
    exact h.symm
  · intro s n hs hp
    have h := hf.2.2.2.2.2.1
    rw [envInt_parse_ok envI _ _ s n hs hp] at h
    injection h with h
    exact h.symm
  · intro s n hs hp
    have h := hf.2.2.2.2.2.2.1
    rw [envInt_parse_ok envI _ _ s n hs hp] at h
    injection h with h
    exact h.symm
  · intro s hs
    have h := hf.2.2.2.2.2.2.2
    rw [envBool_set envI _ s hs] at h
    exact h.symm

/-- Witness for the amended C2: with every override set at import
(integers 11, 12, 33, 777, 5, 99, 3 and truthy `"1"`), the context returned
by the first `get_current()` carries exactly the parsed override values,
and the environment in force after import is irrelevant. -/
theorem c2_override_at_import_wins_witness :
    runWithEnvChange envOverrideAll envEmpty = importAndGet envOverrideAll ∧
    (DAGContext.fromDefaults ⟨11, 12, 33, 777, 5, 99, 3, true⟩).submit_timeout = 11 ∧
    (DAGContext.fromDefaults ⟨11, 12, 33, 777, 5, 99, 3, true⟩).overlap_gpu_communication
      = true ∧
    ∃ r : Nat × ProcState, importAndGet envOverrideAll = Except.ok r ∧
      readAt r.2 r.1 = some (DAGContext.fromDefaults ⟨11, 12, 33, 777, 5, 99, 3, true⟩) := by
  have h := c2_override_at_import_wins envOverrideAll envEmpty
    ⟨11, 12, 33, 777, 5, 99, 3, true⟩ rfl
  exact ⟨h.1, h.2.2.1 "11" 11 rfl (by decide), h.2.2.2.2.2.2.2.2.2 "1" rfl, h.2.1⟩

/-- C4: two `get_current()` calls without an intervening reset return the
same reference to the same unchanged state, and for every value `v`,
assigning `buffer_size_bytes = v` through the first reference is observed
when reading through the second. -/
theorem c4_same_instance (st : ProcState) (hwf : st.WF) :
    DAGContext.get_current ((DAGContext.get_current st).2) =
      ((DAGContext.get_current st).1, (DAGContext.get_current st).2) ∧
    ∀ v : Int,
      (readAt
        (updateAt (DAGContext.get_current st).2 (DAGContext.get_current st).1
          (fun c => c.set_buffer_size_bytes v))
        (DAGContext.get_current ((DAGContext.get_current st).2)).1).map
          (fun c => c.buffer_size_bytes) = some v := by
  have hsame := get_current_init ((DAGContext.get_current st).2)
    (DAGContext.get_current st).1 (get_current_dctx st)
  refine ⟨hsame, fun v => ?_⟩
  obtain ⟨c, hc⟩ := get_current_store st hwf
  rw [hsame]
  rw [read_updateAt_self]
  rw [readAt, hc]
  rfl

/-- Witness for C4 at the concrete singleton state and `v = 500`:
re-reading `buffer_size_bytes` through the second reference yields 500. -/
theorem c4_same_instance_witness :
    DAGContext.get_current ((DAGContext.get_current stSingleton).2) =
      ((DAGContext.get_current stSingleton).1, (DAGContext.get_current stSingleton).2) ∧
    (readAt
      (updateAt (DAGContext.get_current stSingleton).2
        (DAGContext.get_current stSingleton).1
        (fun c => c.set_buffer_size_bytes 500))
      (DAGContext.get_current ((DAGContext.get_current stSingleton).2)).1).map
        (fun c => c.buffer_size_bytes) = some 500 :=
  ⟨(c4_same_instance stSingleton stSingleton_wf).1,
   (c4_same_instance stSingleton stSingleton_wf).2 500⟩

/-- C5: when the import succeeds, the `overlap_gpu_communication` override
is parsed as a truthy/falsy string — the flag is `true` exactly when the set
string is nonempty — while each timeout/size/count override is parsed as an
integer: the resulting field is the integer value `pyInt` extracts from the
set string. -/
theorem c5_parse_types (env : Env) (d : ModuleDefaults)
    (hm : moduleInit env = Except.ok d) :
    (∀ s, env "RAY_CGRAPH_overlap_gpu_communication" = some s →
      (d.DEFAULT_OVERLAP_GPU_COMMUNICATION = true ↔ s ≠ "")) ∧
    (∀ s, env "RAY_CGRAPH_submit_timeout" = some s →
      pyInt s = some d.DEFAULT_SUBMIT_TIMEOUT_S) ∧
    (∀ s, env "RAY_CGRAPH_get_timeout" = some s →
      pyInt s = some d.DEFAULT_GET_TIMEOUT_S) ∧
    (∀ s, env "RAY_CGRAPH_teardown_timeout" = some s →
      pyInt s = some d.DEFAULT_TEARDOWN_TIMEOUT_S) ∧
    (∀ s, env "RAY_CGRAPH_buffer_size_bytes" = some s →
      pyInt s = some d.DEFAULT_BUFFER_SIZE_BYTES) ∧
    (∀ s, env "RAY_CGRAPH_asyncio_max_queue_size" = some s →
      pyInt s = some d.DEFAULT_ASYNCIO_MAX_QUEUE_SIZE) ∧
    (∀ s, env "RAY_CGRAPH_max_buffered_results" = some s →
      pyInt s = some d.DEFAULT_MAX_BUFFERED_RESULTS) ∧
    (∀ s, env "RAY_CGRAPH_max_inflight_executions" = some s →
      pyInt s = some d.DEFAULT_MAX_INFLIGHT_EXECUTIONS) := by
  have hf := moduleInit_ok_fields env d hm
  refine ⟨?_, ?_, ?_, ?_, ?_, ?_, ?_, ?_⟩
  · intro s hs
    rw [← hf.2.2.2.2.2.2.2, envBool_set env _ s hs]
    constructor
    · intro h he
      exact absurd (he ▸ h) (by decide)
    · intro h
      cases hse : s.isEmpty
      · rfl
      · exact absurd ((String.isEmpty_iff s).mp hse) h
  · exact fun s hs => envInt_set_inv env _ _ s _ hs hf.1
  · exact fun s hs => envInt_set_inv env _ _ s _ hs hf.2.1
  · exact fun s hs => envInt_set_inv env _ _ s _ hs hf.2.2.1
  · exact fun s hs => envInt_set_inv env _ _ s _ hs hf.2.2.2.1
  · exact fun s hs => envInt_set_inv env _ _ s _ hs hf.2.2.2.2.1
  · exact fun s hs => envInt_set_inv env _ _ s _ hs hf.2.2.2.2.2.1
  · exact fun s hs => envInt_set_inv env _ _ s _ hs hf.2.2.2.2.2.2.1

/-- Witness for C5 at the environment overriding all eight fields. -/
theorem c5_parse_types_witness :
    ((⟨11, 12, 33, 777, 5, 99, 3, true⟩ :
        ModuleDefaults).DEFAULT_OVERLAP_GPU_COMMUNICATION = true ↔ ("1" : String) ≠ "") ∧
    pyInt "11" = some (⟨11, 12, 33, 777, 5, 99, 3, true⟩ :
        ModuleDefaults).DEFAULT_SUBMIT_TIMEOUT_S :=
  ⟨(c5_parse_types envOverrideAll ⟨11, 12, 33, 777, 5, 99, 3, true⟩ rfl).1 "1" rfl,
   (c5_parse_types envOverrideAll ⟨11, 12, 33, 777, 5, 99, 3, true⟩ rfl).2.1 "11" rfl⟩

/-- C6: the singleton state machine. A fresh process starts UNINITIALIZED
(`_default_context is None`, so the singleton is not created at process
start); the first accessor call transitions to INITIALIZED (pointer set,
one object allocated); and once INITIALIZED every further call returns the
same reference and the state verbatim — it neither returns the pointer to
`None` nor allocates a second instance. -/
theorem c6_state_machine (d : ModuleDefaults) (st : ProcState) :
    (ProcState.initial d).dctx = none ∧
    (st.dctx = none →
      (DAGContext.get_current st).2.dctx = some st.next ∧
      (DAGContext.get_current st).2.next = st.next + 1) ∧
    (∀ a, st.dctx = some a → DAGContext.get_current st = (a, st)) := by
  refine ⟨rfl, fun h => ?_, fun a h => get_current_init st a h⟩
  rw [get_current_uninit st h]
  exact ⟨rfl, rfl⟩

/-- Witness for C6: in a fresh no-override process the first call installs
the singleton at address 0, and a call on the resulting state returns it
unchanged. -/
theorem c6_state_machine_witness :
    (ProcState.initial stockDefaults).dctx = none ∧
    (DAGContext.get_current (ProcState.initial stockDefaults)).2.dctx = some 0 ∧
    DAGContext.get_current stSingleton = (0, stSingleton) :=
  ⟨(c6_state_machine stockDefaults (ProcState.initial stockDefaults)).1,
   ((c6_state_machine stockDefaults (ProcState.initial stockDefaults)).2.1 rfl).1,
   (c6_state_machine stockDefaults stSingleton).2.2 0 rfl⟩

/-- C8: mutation through the reference returned by `get_current()` is a
plain, unvalidated in-place assignment: for every field and every value of
its declared type — including out-of-range values such as a negative
timeout — the (total, never-failing) assignment is read back exactly. -/
theorem c8_unvalidated_mutation (st : ProcState) (hwf : st.WF) :
    (∀ v : Int,
      (readAt (updateAt (DAGContext.get_current st).2 (DAGContext.get_current st).1
          (fun c => c.set_submit_timeout v)) (DAGContext.get_current st).1).map
        (fun c => c.submit_timeout) = some v) ∧
    (∀ v : Int,
      (readAt (updateAt (DAGContext.get_current st).2 (DAGContext.get_current st).1
          (fun c => c.set_get_timeout v)) (DAGContext.get_current st).1).map
        (fun c => c.get_timeout) = some v) ∧
    (∀ v : Int,
      (readAt (updateAt (DAGContext.get_current st).2 (DAGContext.get_current st).1
          (fun c => c.set_teardown_timeout v)) (DAGContext.get_current st).1).map
        (fun c => c.teardown_timeout) = some v) ∧
    (∀ v : Int,
      (readAt (updateAt (DAGContext.get_current st).2 (DAGContext.get_current st).1
          (fun c => c.set_buffer_size_bytes v)) (DAGContext.get_current st).1).map
        (fun c => c.buffer_size_bytes) = some v) ∧
    (∀ v : Int,
      (readAt (updateAt (DAGContext.get_current st).2 (DAGContext.get_current st).1
          (fun c => c.set_asyncio_max_queue_size v)) (DAGContext.get_current st).1).map
        (fun c => c.asyncio_max_queue_size) = some v) ∧
    (∀ v : Int,
      (readAt (updateAt (DAGContext.get_current st).2 (DAGContext.get_current st).1
          (fun c => c.set_max_buffered_results v)) (DAGContext.get_current st).1).map
        (fun c => c.max_buffered_results) = some v) ∧
    (∀ v : Int,
      (readAt (updateAt (DAGContext.get_current st).2 (DAGContext.get_current st).1
          (fun c => c.set_max_inflight_executions v)) (DAGContext.get_current st).1).map
        (fun c => c.max_inflight_executions) = some v) ∧
    (∀ v : Bool,
      (readAt (updateAt (DAGContext.get_current st).2 (DAGContext.get_current st).1
          (fun c => c.set_overlap_gpu_communication v)) (DAGContext.get_current st).1).map
        (fun c => c.overlap_gpu_communication) = some v) := by
  obtain ⟨c, hc⟩ := get_current_store st hwf
  refine ⟨fun v => ?_, fun v => ?_, fun v => ?_, fun v => ?_, fun v => ?_,
    fun v => ?_, fun v => ?_, fun v => ?_⟩ <;>
    rw [read_updateAt_self, readAt, hc] <;> rfl

/-- Witness for C8: in the concrete singleton state, a negative submit
timeout of `-7` and an overlap flag of `true` are stored and read back
without error. -/
theorem c8_unvalidated_mutation_witness :
    (readAt (updateAt (DAGContext.get_current stSingleton).2
        (DAGContext.get_current stSingleton).1
        (fun c => c.set_submit_timeout (-7))) (DAGContext.get_current stSingleton).1).map
      (fun c => c.submit_timeout) = some (-7) ∧
    (readAt (updateAt (DAGContext.get_current stSingleton).2
        (DAGContext.get_current stSingleton).1
        (fun c => c.set_overlap_gpu_communication true))
      (DAGContext.get_current stSingleton).1).map
      (fun c => c.overlap_gpu_communication) = some true :=
  ⟨(c8_unvalidated_mutation stSingleton stSingleton_wf).1 (-7),
   (c8_unvalidated_mutation stSingleton stSingleton_wf).2.2.2.2.2.2.2 true⟩

/-- C9: once the singleton exists, a `get_current()` call is a pure read —
it returns the stored reference and the process state verbatim, so no field
of the singleton changes and the singleton is not replaced. -/
theorem c9_subsequent_calls_pure (st : ProcState) (a : Nat) (h : st.dctx = some a) :
    DAGContext.get_current st = (a, st) ∧
    readAt (DAGContext.get_current st).2 a = readAt st a :=
  ⟨get_current_init st a h, by rw [get_current_init st a h]⟩

/-- Witness for C9 at the concrete singleton state. -/
theorem c9_subsequent_calls_pure_witness :
    DAGContext.get_current stSingleton = (0, stSingleton) ∧
    readAt (DAGContext.get_current stSingleton).2 0 = readAt stSingleton 0 :=
  c9_subsequent_calls_pure stSingleton 0 rfl

/-- C10: a `DAGContext` can be constructed directly with any field values;
doing so allocates a separate object and neither installs it as the
process-wide singleton nor changes any field of the singleton: the pointer
is untouched, the new reference differs from the singleton's, a later
`get_current()` still returns the unchanged singleton — or, if the process
was uninitialized, a freshly default-constructed instance. -/
theorem c10_direct_construction_frame (st : ProcState) (c : DAGContext) (hwf : st.WF) :
    readAt (constructNew st c).2 (constructNew st c).1 = some c ∧
    (constructNew st c).2.dctx = st.dctx ∧
    (∀ a, st.dctx = some a →
      (constructNew st c).1 ≠ a ∧
      readAt (constructNew st c).2 a = readAt st a ∧
      DAGContext.get_current (constructNew st c).2 = (a, (constructNew st c).2)) ∧
    (st.dctx = none →
      readAt (DAGContext.get_current (constructNew st c).2).2
          (DAGContext.get_current (constructNew st c).2).1 =
        some (DAGContext.fromDefaults st.defaults)) := by
  refine ⟨by simp [constructNew, readAt], rfl, fun a ha => ?_, fun hn => ?_⟩
  · have hlt : a < st.next := (hwf a ha).1
    have hne : st.next ≠ a := fun he => absurd (he ▸ hlt) (lt_irrefl a)
    have hne' : a ≠ st.next := fun he => hne he.symm
    refine ⟨hne, ?_, get_current_init _ a ha⟩
    simp [constructNew, readAt, hne']
  · have hn' : (constructNew st c).2.dctx = none := hn
    rw [get_current_uninit _ hn']
    simp [constructNew, readAt]

/-- Witness for C10: constructing `DAGContext(1, 2, 3, 4, 5, 6, 7, True)`
beside the existing singleton leaves the singleton (still the default
instance at address 0) untouched. -/
theorem c10_direct_construction_frame_witness :
    readAt (constructNew stSingleton ⟨1, 2, 3, 4, 5, 6, 7, true⟩).2
        (constructNew stSingleton ⟨1, 2, 3, 4, 5, 6, 7, true⟩).1 =
      some ⟨1, 2, 3, 4, 5, 6, 7, true⟩ ∧
    (constructNew stSingleton ⟨1, 2, 3, 4, 5, 6, 7, true⟩).2.dctx = stSingleton.dctx ∧
    readAt (constructNew stSingleton ⟨1, 2, 3, 4, 5, 6, 7, true⟩).2 0 =
      readAt stSingleton 0 :=
  ⟨(c10_direct_construction_frame stSingleton ⟨1, 2, 3, 4, 5, 6, 7, true⟩
      stSingleton_wf).1,
   (c10_direct_construction_frame stSingleton ⟨1, 2, 3, 4, 5, 6, 7, true⟩
      stSingleton_wf).2.1,
   ((c10_direct_construction_frame stSingleton ⟨1, 2, 3, 4, 5, 6, 7, true⟩
      stSingleton_wf).2.2.1 0 rfl).2.1⟩

/-- The invariant holds at the start of any concurrent first access. -/
theorem concInv_start (K : Nat) (d : ModuleDefaults) :
    ConcInv K d (ConcState.start K d) := by
  refine ⟨rfl, Nat.zero_le 1, ⟨fun _ => rfl, fun _ => rfl⟩, ?_, ?_⟩
  · intro a h
    exact Option.noConfusion h
  · intro t r h
    exact ThreadPhase.noConfusion h

/-- Every interleaving step preserves the invariant. -/
theorem concInv_step (K : Nat) (d : ModuleDefaults) (s s' : ConcState K)
    (hs : ConcInv K d s) (hstep : CStep K s s') : ConcInv K d s' := by
  obtain ⟨hd, hb, hiff, hstore, hfin⟩ := hs
  cases hstep with
  | acquire t s hl ht =>
    refine ⟨hd, hb, hiff, hstore, ?_⟩
    intro u r hu
    have hu' : Function.update s.threads t ThreadPhase.locked u =
        ThreadPhase.finished r := hu
    show s.proc.dctx = some r
    by_cases hut : u = t
    · subst hut
      rw [Function.update_same] at hu'
      exact ThreadPhase.noConfusion hu'
    · rw [Function.update_noteq hut] at hu'
      exact hfin u r hu'
  | body t s hl ht =>
    cases hdc : s.proc.dctx with
    | some a =>
      rw [get_current_init s.proc a hdc]
      have hif : (if (some a : Option Nat) = none then 1 else 0) = 0 := rfl
      refine ⟨hd, ?_, ?_, hstore, ?_⟩
      · show s.builds + (if (some a : Option Nat) = none then 1 else 0) ≤ 1
        rw [hif, Nat.add_zero]
        exact hb
      · show s.proc.dctx = none ↔
          s.builds + (if (some a : Option Nat) = none then 1 else 0) = 0
        rw [hif, Nat.add_zero]
        exact hiff
      · intro u r hu
        have hu' : Function.update s.threads t (ThreadPhase.finished a) u =
            ThreadPhase.finished r := hu
        show s.proc.dctx = some r
        by_cases hut : u = t
        · subst hut
          rw [Function.update_same] at hu'
          injection hu' with hu'
          rw [← hu']
          exact hdc
        · rw [Function.update_noteq hut] at hu'
          exact hfin u r hu'
    | none =>
      have hb0 : s.builds = 0 := hiff.mp hdc
      rw [get_current_uninit s.proc hdc]
      have hif : (if (none : Option Nat) = none then 1 else 0) = 1 := rfl
      refine ⟨hd, ?_, ?_, ?_, ?_⟩
      · show s.builds + (if (none : Option Nat) = none then 1 else 0) ≤ 1
        rw [hif, hb0]
      · show (some s.proc.next : Option Nat) = none ↔
          s.builds + (if (none : Option Nat) = none then 1 else 0) = 0
        rw [hif, hb0]
        simp
      · intro b hbm
        have hbm' : (some s.proc.next : Option Nat) = some b := hbm
        injection hbm' with hbm'
        subst hbm'
        show (if s.proc.next = s.proc.next then
            some (DAGContext.fromDefaults s.proc.defaults)
          else s.proc.store s.proc.next) = some (DAGContext.fromDefaults d)
        rw [if_pos rfl, hd]
      · intro u r hu
        have hu' : Function.update s.threads t (ThreadPhase.finished s.proc.next) u =
            ThreadPhase.finished r := hu
        show (some s.proc.next : Option Nat) = some r
        by_cases hut : u = t
        · subst hut
          rw [Function.update_same] at hu'
          injection hu' with hu'
          rw [hu']
        · rw [Function.update_noteq hut] at hu'
          have := hfin u r hu'
          rw [hdc] at this
          exact Option.noConfusion this

/-- C7: when `K` threads concurrently make the first `get_current()` calls
of the process, in every interleaving of the lock-protected steps that ends
with all threads finished, the constructor ran exactly once, and every
thread got the same reference to the one fully constructed (all fields at
their defaults) singleton — no duplicate construction and no thread
observing a partially initialized or distinct instance. -/
theorem c7_concurrent_single_construction (K : Nat) (d : ModuleDefaults)
    (s : ConcState K) (hreach : ConcReach K (ConcState.start K d) s) (hK : 0 < K)
    (hdone : ∀ t, ∃ r, s.threads t = ThreadPhase.finished r) :
    s.builds = 1 ∧
    ∃ a, s.proc.dctx = some a ∧
      s.proc.store a = some (DAGContext.fromDefaults d) ∧
      ∀ t, s.threads t = ThreadPhase.finished a := by
  have hinv : ConcInv K d s := by
    clear hdone hK
    induction hreach with
    | refl => exact concInv_start K d
    | tail hsteps hstep ih => exact concInv_step K d _ _ ih hstep
  obtain ⟨hd, hb, hiff, hstore, hfin⟩ := hinv
  obtain ⟨r0, hr0⟩ := hdone ⟨0, hK⟩
  have hdc : s.proc.dctx = some r0 := hfin _ r0 hr0
  have hb1 : s.builds = 1 := by
    have hne : s.builds ≠ 0 := fun h0 => by
      rw [hiff.mpr h0] at hdc
      exact Option.noConfusion hdc
    omega
  refine ⟨hb1, r0, hdc, hstore r0 hdc, fun t => ?_⟩
  obtain ⟨r, hr⟩ := hdone t
  have : s.proc.dctx = some r := hfin t r hr
  rw [hdc] at this
  injection this with this
  rw [hr, this]

/-- Witness for C7: the one-thread interleaving
acquire-then-run-body reaches a final state with exactly one construction
and the thread holding the singleton's reference. -/
theorem c7_concurrent_single_construction_witness :
    concFinal.builds = 1 ∧
    ∃ a, concFinal.proc.dctx = some a ∧
      concFinal.proc.store a = some (DAGContext.fromDefaults stockDefaults) ∧
      ∀ t, concFinal.threads t = ThreadPhase.finished a := by
  have h1 : CStep 1 concStart concMid := CStep.acquire 0 concStart rfl rfl
  have h2 : CStep 1 concMid concFinal := CStep.body 0 concMid rfl (by
    show Function.update concStart.threads 0 ThreadPhase.locked 0 = ThreadPhase.locked
    rw [Function.update_same])
  exact c7_concurrent_single_construction 1 stockDefaults concFinal
    (Relation.ReflTransGen.tail
      (Relation.ReflTransGen.tail Relation.ReflTransGen.refl h1) h2)
    Nat.one_pos
    (fun t => ⟨(DAGContext.get_current concMid.proc).1, by
      rw [Subsingleton.elim t 0]
      show Function.update concMid.threads 0
        (ThreadPhase.finished (DAGContext.get_current concMid.proc).1) 0 = _
      rw [Function.update_same]⟩)

end RayDag
